import Mathlib

/-! Verification development for the twitter-ads SDK HTTP layer
(twitter_ads/http.py): a shallow embedding of Request.perform,
Request.__domain, Request.__chunck_image and of Response, with theorems
about domain resolution, error-status translation, rate-limit header
parsing, the parsed-body fallback and the multipart image-upload builder. -/

namespace TwitterAdsHttp

/-- Python values as far as this module handles them: None, booleans,
integers, strings, lists and string-keyed dicts (parsed JSON bodies). -/
inductive PyVal : Type where
  | none : PyVal
  | bool : Bool → PyVal
  | int : Int → PyVal
  | str : String → PyVal
  | list : List PyVal → PyVal
  | dict : List (String × PyVal) → PyVal

/-- Python truthiness (bool(x)) for the values above: None, False, 0, the
empty string, the empty list and the empty dict are falsy. -/
def PyVal.truthy : PyVal → Bool
  | PyVal.none => false
  | PyVal.bool b => b
  | PyVal.int n => n != 0
  | PyVal.str s => s != ""
  | PyVal.list l => !l.isEmpty
  | PyVal.dict l => !l.isEmpty

/-- A response header value as this module reads it: int() reads the textual
value; the cost-based reset header is additionally read through a .first
attribute (the first value of a possibly multi-valued header), which a plain
single-valued header value does not carry. -/
structure HVal where
  val : String
  first : Option String
deriving DecidableEq, Repr

/-- datetime instants, kept symbolically: either
datetime.datetime.fromtimestamp of an epoch second, or dateutil parsing of a
date string. -/
inductive Instant : Type where
  | fromTimestamp : Int → Instant
  | fromDateString : String → Instant
deriving DecidableEq, Repr

/-- Embeds a constructed twitter_ads.http.Response (fields _code, _headers,
_body, _raw_body, _rate_limit, _rate_limit_remaining, _rate_limit_reset). -/
structure Response where
  code : Int
  headers : List (String × HVal)
  body : PyVal
  raw_body : PyVal
  rate_limit : Option Int
  rate_limit_remaining : Option Int
  rate_limit_reset : Option Instant

/-- Exceptions the embedded code can raise: Python NameError / KeyError /
ValueError / AttributeError, a JSON decoding failure from response.json(),
twitter_ads.error.Error(msg) (sdkError) and Error.from_response(response)
(apiError). -/
inductive PyErr : Type where
  | nameError : PyErr
  | keyError : String → PyErr
  | valueError : String → PyErr
  | attributeError : String → PyErr
  | jsonDecodeError : String → PyErr
  | sdkError : String → PyErr
  | apiError : Response → PyErr

/-- Dict lookup on an association list: headers[k] when the key is present. -/
def headerGet (hs : List (String × HVal)) (k : String) : Option HVal :=
  (hs.find? (fun p => p.fst == k)).map (fun p => p.snd)

/-- Python membership `k in headers`. -/
def headerHas (hs : List (String × HVal)) (k : String) : Bool :=
  (headerGet hs k).isSome

/-- The value of a decimal digit, when the character is one. -/
def digitVal (c : Char) : Option Nat :=
  if 48 ≤ c.toNat ∧ c.toNat ≤ 57 then some (c.toNat - 48) else none

/-- Reads decimal digits into an accumulator; none on a non-digit. -/
def decNatAux : List Char → Nat → Option Nat
  | [], acc => some acc
  | c :: cs, acc =>
    match digitVal c with
    | none => none
    | some d => decNatAux cs (acc * 10 + d)

/-- Models Python int() on a string: an optional minus sign followed by at
least one decimal digit (the blank-stripping of int() is not needed for any
value read here). -/
def pyInt (s : String) : Option Int :=
  match s.data with
  | [] => none
  | c :: cs =>
    if c = '-' then
      match cs with
      | [] => none
      | _ => (decNatAux cs 0).map (fun n => -(n : Int))
    else (decNatAux (c :: cs) 0).map (fun n => (n : Int))

/-- int(headers[k]): KeyError when the key is absent, ValueError when the
value is not an integer literal (int() on a string modelled by pyInt). -/
def headerInt (hs : List (String × HVal)) (k : String) : Except PyErr Int :=
  match headerGet hs k with
  | none => Except.error (PyErr.keyError k)
  | some hv =>
    match pyInt hv.val with
    | none => Except.error (PyErr.valueError hv.val)
    | some n => Except.ok n

/-- Models dateutil date parsing symbolically: the parsed instant records the
input string. A parse failure on an unparseable string is not modelled; no
claim settled here depends on it. -/
def dateutil_parse (s : String) : Instant := Instant.fromDateString s

/-- Embeds the rate-limit extraction of Response.__init__ (http.py lines
162-176): the standard scheme (x-rate-limit-limit / -remaining as ints,
x-rate-limit-reset as fromtimestamp(int(...))) whenever x-rate-limit-reset is
a header; else the cost-based scheme (x-cost-rate-limit-limit / -remaining as
ints, dateutil parse of x-cost-rate-limit-reset.first) whenever
x-cost-rate-limit-reset is a header; else three None fields. Each read is as
in the source, so a missing key (KeyError), a non-integer value (ValueError)
or a missing .first (AttributeError) aborts the construction. -/
def rateFields (hs : List (String × HVal)) :
    Except PyErr (Option Int × Option Int × Option Instant) :=
  if headerHas hs "x-rate-limit-reset" then
    match headerInt hs "x-rate-limit-limit" with
    | Except.error e => Except.error e
    | Except.ok l =>
      match headerInt hs "x-rate-limit-remaining" with
      | Except.error e => Except.error e
      | Except.ok m =>
        match headerInt hs "x-rate-limit-reset" with
        | Except.error e => Except.error e
        | Except.ok t =>
          Except.ok (some l, some m, some (Instant.fromTimestamp t))
  else if headerHas hs "x-cost-rate-limit-reset" then
    match headerInt hs "x-cost-rate-limit-limit" with
    | Except.error e => Except.error e
    | Except.ok l =>
      match headerInt hs "x-cost-rate-limit-remaining" with
      | Except.error e => Except.error e
      | Except.ok m =>
        match headerGet hs "x-cost-rate-limit-reset" with
        | none => Except.error (PyErr.keyError "x-cost-rate-limit-reset")
        | some hv =>
          match hv.first with
          | none => Except.error (PyErr.attributeError "first")
          | some s => Except.ok (some l, some m, some (dateutil_parse s))
  else Except.ok (none, none, none)

/-- Python `a or b`: a when truthy, else b. -/
def pyOr (a b : PyVal) : PyVal := if a.truthy then a else b

/-- Embeds Response.__init__ (http.py lines 156-176). body and raw_body are
the optional keyword arguments; _raw_body = kwargs.get with key raw_body and
default None; _body is that body default-None value or-ed with _raw_body;
the rate-limit fields are per rateFields. A raised exception means no
Response is constructed. -/
def Response.make (code : Int) (hs : List (String × HVal))
    (body : Option PyVal) (raw_body : Option PyVal) : Except PyErr Response :=
  let rawB := raw_body.getD PyVal.none
  let bodyB := pyOr (body.getD PyVal.none) rawB
  match rateFields hs with
  | Except.error e => Except.error e
  | Except.ok (l, m, t) =>
    Except.ok { code := code, headers := hs, body := bodyB, raw_body := rawB,
                rate_limit := l, rate_limit_remaining := m,
                rate_limit_reset := t }

/-- Embeds the Response.error property (http.py lines 206-208): True if
400 <= code <= 599 else False. -/
def Response.error (r : Response) : Bool :=
  if 400 ≤ r.code ∧ r.code ≤ 599 then true else false

/-- The client context: four credentials plus the sandbox and trace flags. -/
structure Client where
  consumer_key : String
  consumer_secret : String
  access_token : String
  access_token_secret : String
  sandbox : Bool
  trace : Bool
deriving DecidableEq, Repr

/-- The recognized option keys of a Request (the kwargs bag). -/
structure Options where
  headers : Option (List (String × String))
  params : Option PyVal
  body : Option PyVal
  domain : Option String

/-- Embeds twitter_ads.http.Request: client, lowercased method, resource and
the copied options. -/
structure Request where
  client : Client
  method : String
  resource : String
  options : Options

/-- Request.__init__ (http.py lines 35-39): stores the client, lowercases the
method, stores the resource and a copy of the options. -/
def Request.make (client : Client) (method resource : String)
    (options : Options) : Request :=
  { client := client, method := method.toLower, resource := resource,
    options := options }

/-- Request._DEFAULT_DOMAIN (http.py line 32). -/
def DEFAULT_DOMAIN : String := "https://ads-api.twitter.com"

/-- Request._SANDBOX_DOMAIN (http.py line 33). -/
def SANDBOX_DOMAIN : String := "https://ads-api-sandbox.twitter.com"

/-- Embeds Request.__domain (http.py lines 99-102): the sandbox domain when
client.sandbox, else the domain option with the production default. -/
def Request.domain (r : Request) : String :=
  if r.client.sandbox then SANDBOX_DOMAIN
  else r.options.domain.getD DEFAULT_DOMAIN

/-- The final URL of Request.__oauth_request (http.py line 79): domain plus
resource. -/
def Request.url (r : Request) : String := r.domain ++ r.resource

/-- What one transport dispatch (a requests_oauthlib OAuth1Session verb call)
returns: status code, headers, the outcome of response.json() (which raises
on a body that is not valid JSON) and response.text. -/
structure TransportReply where
  status_code : Int
  headers : List (String × HVal)
  json : Except PyErr PyVal
  text : String

/-- The transport: one OAuth1-signed dispatch as a function of method, url,
headers, data and params. -/
abbrev Send : Type :=
  String → String → List (String × String) → Option PyVal → Option PyVal →
    TransportReply

/-- Python dict update on string dicts kept as association lists: the first
dict with values overridden by the second, then the keys only in the second. -/
def dictUpdate (a b : List (String × String)) : List (String × String) :=
  (a.map (fun p =>
    match b.find? (fun q => q.fst == p.fst) with
    | some q => (p.fst, q.snd)
    | none => p)) ++
  b.filter (fun q => (a.find? (fun p => p.fst == q.fst)).isNone)

/-- The headers dict of __oauth_request (http.py lines 66-68): the generated
user-agent entry updated with the caller-supplied headers option. -/
def merged_headers (ua : String) (opt : Option (List (String × String))) :
    List (String × String) :=
  dictUpdate [("user-agent", ua)] (opt.getD [])

/-- Embeds Request.__oauth_request (http.py lines 65-84): build the headers
dict from the user-agent plus caller headers, take params and body from the
options, dispatch via the signing session at domain + resource, and construct
Response(status_code, headers, body=response.json(), raw_body=response.text).
response.json() raising on invalid JSON aborts before any Response is built.
The user-agent string (assembled from external version and platform data) and
the signing session (the function send) are inputs of the embedding. -/
def Request.oauth_request (r : Request) (ua : String) (send : Send) :
    Except PyErr Response :=
  let headers := merged_headers ua r.options.headers
  let params := r.options.params
  let data := r.options.body
  let reply := send r.method (r.domain ++ r.resource) headers data params
  match reply.json with
  | Except.error e => Except.error e
  | Except.ok parsed =>
    Response.make reply.status_code reply.headers (some parsed)
      (some (PyVal.str reply.text))

/-- Embeds Request.perform (http.py lines 57-63). The trace branch only
toggles process-wide logging and moves no data, so it is not modelled.
Error.from_response(response) is PyErr.apiError applied to the response. -/
def Request.perform (r : Request) (ua : String) (send : Send) :
    Except PyErr Response :=
  match r.oauth_request ua send with
  | Except.error e => Except.error e
  | Except.ok response =>
    if response.code > 399 then Except.error (PyErr.apiError response)
    else Except.ok response

/-- A binary file handle: contents as bytes, a read position and a closed
flag. seek, tell, read and close act as on Python file objects. -/
structure FileHandle where
  content : List Nat
  pos : Nat
  closed : Bool
deriving DecidableEq, Repr

/-- f.seek(0, 2): move to the end. -/
def FileHandle.seekEnd (h : FileHandle) : FileHandle :=
  { h with pos := h.content.length }

/-- f.tell(): the current position. -/
def FileHandle.tell (h : FileHandle) : Nat := h.pos

/-- f.seek(0): move to the start. -/
def FileHandle.seekStart (h : FileHandle) : FileHandle := { h with pos := 0 }

/-- fp.read(): the bytes from the position to the end, with the handle
advanced to the end. -/
def FileHandle.readAll (h : FileHandle) : List Nat × FileHandle :=
  (h.content.drop h.pos, { h with pos := h.content.length })

/-- fp.close(). -/
def FileHandle.close (h : FileHandle) : FileHandle := { h with closed := true }

/-- The UTF-8 encoding of one code point. -/
def utf8Char (c : Nat) : List Nat :=
  if c ≤ 127 then [c]
  else if c ≤ 2047 then [192 + c / 64, 128 + c % 64]
  else if c ≤ 65535 then [224 + c / 4096, 128 + c / 64 % 64, 128 + c % 64]
  else [240 + c / 262144, 128 + c / 4096 % 64, 128 + c / 64 % 64,
        128 + c % 64]

/-- The UTF-8 bytes of a string (str.encode with utf-8). -/
def utf8 (s : String) : List Nat :=
  s.data.flatMap (fun ch => utf8Char ch.toNat)

/-- ASCII lowercasing of one code point. -/
def lowerChar (c : Nat) : Nat := if 65 ≤ c ∧ c ≤ 90 then c + 32 else c

/-- str.lower on the code points of a string, as the MIME guess applies it
to extensions (ASCII range). -/
def lowerCodes (s : String) : List Nat :=
  s.data.map (fun ch => lowerChar ch.toNat)

/-- Whether one byte string ends with another. -/
def listEndsWith (l suffixCodes : List Nat) : Bool :=
  suffixCodes.isSuffixOf l

/-- Models the standard-library MIME guess from a filename: the pair of type
and encoding, the type keyed on the lowercased extension, restricted to the
extensions this development exercises; any other extension guesses nothing. -/
def guess_type (filename : String) : Option String × Option String :=
  let lower := lowerCodes filename
  if listEndsWith lower (utf8 ".png") then (some "image/png", none)
  else if listEndsWith lower (utf8 ".jpg") ||
      listEndsWith lower (utf8 ".jpeg") then (some "image/jpeg", none)
  else if listEndsWith lower (utf8 ".gif") then (some "image/gif", none)
  else if listEndsWith lower (utf8 ".bmp") then (some "image/bmp", none)
  else (none, none)

/-- Two lowercase hex digits of a byte. -/
def hex2 (n : Nat) : String :=
  let d := fun k : Nat =>
    String.singleton (Char.ofNat (if k < 10 then 48 + k else 87 + k))
  d (n / 16 % 16) ++ d (n % 16)

/-- One byte inside the Python repr of a bytes object, under quote character
code q: the backslash, the quote, tab, line feed and carriage return are
backslash-escaped, other printable ASCII stands for itself, and the rest is
a two-digit hex escape. -/
def reprByte (q b : Nat) : String :=
  if b == 92 then "\\\\"
  else if b == q then "\\" ++ String.singleton (Char.ofNat q)
  else if b == 9 then "\\t"
  else if b == 10 then "\\n"
  else if b == 13 then "\\r"
  else if 32 ≤ b && b ≤ 126 then String.singleton (Char.ofNat b)
  else "\\x" ++ hex2 b

/-- The Python repr of a bytes object, which is also how str.format renders
a bytes argument: a b prefix, quotes chosen as CPython does (single quotes
unless the bytes hold a single quote and no double quote), and each byte
escaped by reprByte. -/
def pyReprBytes (bs : List Nat) : String :=
  let q : Nat := if bs.contains 39 && !(bs.contains 34) then 34 else 39
  "b" ++ String.singleton (Char.ofNat q) ++ String.join (bs.map (reprByte q))
    ++ String.singleton (Char.ofNat q)

/-- How the percent-s formatting of the invalid-type message renders the
guessed type: None prints as None. -/
def pyStrOfOpt (o : Option String) : String :=
  match o with
  | none => "None"
  | some s => s

/-- The join of byte strings with a carriage return and line feed between
consecutive elements (http.py line 144). -/
def joinCRLF (parts : List (List Nat)) : List Nat :=
  match parts with
  | [] => []
  | [p] => p
  | p :: rest => p ++ [13, 10] ++ joinCRLF rest

/-- The file-too-large message of http.py lines 109 and 118. -/
def sizeErrorMsg (max_size : Nat) : String :=
  "File is too big, must be less than " ++ toString max_size ++ "kb."

/-- The invalid-file-type message of http.py line 127. -/
def invalidTypeMsg (t : Option String) : String :=
  "Invalid file type for image: " ++ pyStrOfOpt t

/-- The outcome of the upload-body builder: either the headers dict and the
body bytes or a raised error, paired with the final state of the
caller-supplied handle (none when no handle was passed in). -/
abbrev ChunckOutcome : Type :=
  Except PyErr (List (String × String) × List Nat) × Option FileHandle

/-- Embeds Request.__chunck_image (http.py lines 105-151), the handle state
threaded explicitly.

The def has no self parameter, so in the no-handle branch the expression
os.path.getsize(self) at line 108 reads the unbound name self and raises
NameError, which the except clause for os.error does not catch: that branch
can never reach a size check or open the file. Line 118 writes its raise
without the call parentheses, a syntax slip embedded as the intended raise of
the file-too-large Error. Line 122 stores the pair the MIME guess returns, so
the is-None test at line 123 compares a pair against None and never fires;
the embedding drops that dead branch and keeps the [0] projection of line
125. The isinstance test at line 129 is read under Python 3, where every str
is text, so the filename is always UTF-8 encoded, and formatting those bytes
into the content-disposition line at lines 135-137 renders their repr. -/
def chunck_image (filename : String) (max_size : Nat) (form_field : String)
    (f : Option FileHandle) : ChunckOutcome :=
  match f with
  | none => (Except.error PyErr.nameError, none)
  | some h0 =>
    let h1 := h0.seekEnd
    if h1.tell > max_size * 1024 then
      (Except.error (PyErr.sdkError (sizeErrorMsg max_size)), some h1)
    else
      let fp := h1.seekStart
      let file_type := (guess_type filename).fst
      let allowed :=
        match file_type with
        | some t => t == "image/gif" || t == "image/jpeg" || t == "image/png"
        | none => false
      if !allowed then
        (Except.error (PyErr.sdkError (invalidTypeMsg file_type)), some fp)
      else
        let fnBytes := utf8 filename
        let dispLine := utf8 ("Content-Disposition: form-data; name=\"" ++
          form_field ++ "\"; filename=\"" ++ pyReprBytes fnBytes ++ "\"")
        let ctLine := utf8 ("Content-Type: " ++ pyStrOfOpt file_type)
        let readRes := fp.readAll
        let body := joinCRLF
          [utf8 "--twitter-ads", dispLine, ctLine, [], readRes.fst,
           utf8 "--twitter-ads--", []]
        let fpClosed := readRes.snd.close
        let headers :=
          [("Content-Type", "multipart/form-data; boundary=twitter-ads"),
           ("Content-Length", toString body.length)]
        (Except.ok (headers, body), some fpClosed)

/-- The multipart body exactly as claim C7 words it: the CRLF-joined
sequence of the boundary line, the content-disposition line carrying the
field name and the filename (its UTF-8 bytes inserted as such), the
content-type line, a blank line, the file bytes and the closing boundary.
Stated from the claim, to be compared with the body chunck_image builds. -/
def claimed_multipart_body (filename form_field ctype : String)
    (fileBytes : List Nat) : List Nat :=
  joinCRLF
    [utf8 "--twitter-ads",
     utf8 ("Content-Disposition: form-data; name=\"" ++ form_field ++
       "\"; filename=\"") ++ utf8 filename ++ utf8 "\"",
     utf8 ("Content-Type: " ++ ctype), [], fileBytes,
     utf8 "--twitter-ads--"]

/-- The body chunck_image assembles on success: as the claimed body, except
that the filename appears as the Python repr of its UTF-8 encoding and that
a trailing empty element leaves a final CRLF after the closing boundary. -/
def amended_multipart_body (filename form_field ctype : String)
    (fileBytes : List Nat) : List Nat :=
  joinCRLF
    [utf8 "--twitter-ads",
     utf8 ("Content-Disposition: form-data; name=\"" ++ form_field ++
       "\"; filename=\"" ++ pyReprBytes (utf8 filename) ++ "\""),
     utf8 ("Content-Type: " ++ ctype), [], fileBytes,
     utf8 "--twitter-ads--", []]

/-- The body of a successful builder outcome, when there is one. -/
def builtBody (r : ChunckOutcome) : Option (List Nat) :=
  match r.fst with
  | Except.ok hb => some hb.snd
  | Except.error _ => none

/-- Whether a builder outcome succeeded. -/
def builtOk (r : ChunckOutcome) : Bool :=
  match r.fst with
  | Except.ok _ => true
  | Except.error _ => false

/-- The closed flag of the handle a builder outcome returns. -/
def finalClosed (r : ChunckOutcome) : Option Bool :=
  r.snd.map FileHandle.closed

/-- Headers carrying both rate-limit schemes at once, for the C2 witness. -/
def bothSchemeHeaders : List (String × HVal) :=
  [("x-rate-limit-limit", ⟨"100", none⟩),
   ("x-rate-limit-remaining", ⟨"99", none⟩),
   ("x-rate-limit-reset", ⟨"1700000000", none⟩),
   ("x-cost-rate-limit-limit", ⟨"5", none⟩),
   ("x-cost-rate-limit-remaining", ⟨"4", none⟩),
   ("x-cost-rate-limit-reset",
    ⟨"Tue, 01 Jan 2019 00:00:00 GMT", some "Tue, 01 Jan 2019 00:00:00 GMT"⟩)]

/-- The Response the constructor builds from bothSchemeHeaders: populated
from the standard scheme only. -/
def bothSchemeResponse : Response :=
  ⟨200, bothSchemeHeaders, PyVal.str "{}", PyVal.str "{}", some 100, some 99,
   some (Instant.fromTimestamp 1700000000)⟩

/-- How rateFields populates the three fields: from the standard scheme when
x-rate-limit-reset is a header, else from the cost scheme when
x-cost-rate-limit-reset is a header, else not at all; on success the three
fields are all populated or all None. -/
theorem rateFields_spec (hs : List (String × HVal)) (l m : Option Int)
    (t : Option Instant) (h : rateFields hs = Except.ok (l, m, t)) :
    ((l ≠ none ∧ m ≠ none ∧ t ≠ none) ∨
     (l = none ∧ m = none ∧ t = none)) ∧
    (headerHas hs "x-rate-limit-reset" = true →
      ∃ li mi ti : Int,
        headerInt hs "x-rate-limit-limit" = Except.ok li ∧
        headerInt hs "x-rate-limit-remaining" = Except.ok mi ∧
        headerInt hs "x-rate-limit-reset" = Except.ok ti ∧
        l = some li ∧ m = some mi ∧
        t = some (Instant.fromTimestamp ti)) ∧
    (headerHas hs "x-rate-limit-reset" = false →
      headerHas hs "x-cost-rate-limit-reset" = true →
      ∃ li mi : Int, ∃ hv : HVal, ∃ s : String,
        headerInt hs "x-cost-rate-limit-limit" = Except.ok li ∧
        headerInt hs "x-cost-rate-limit-remaining" = Except.ok mi ∧
        headerGet hs "x-cost-rate-limit-reset" = some hv ∧
        hv.first = some s ∧
        l = some li ∧ m = some mi ∧ t = some (dateutil_parse s)) ∧
    (headerHas hs "x-rate-limit-reset" = false →
      headerHas hs "x-cost-rate-limit-reset" = false →
      l = none ∧ m = none ∧ t = none) := by
  unfold rateFields at h
  split at h
  next h1 =>
    split at h
    next e heq => exact Except.noConfusion h
    next li hli =>
      split at h
      next e heq => exact Except.noConfusion h
      next mi hmi =>
        split at h
        next e heq => exact Except.noConfusion h
        next ti hti =>
          simp only [Except.ok.injEq, Prod.mk.injEq] at h
          obtain ⟨hl, hm, ht⟩ := h
          subst hl; subst hm; subst ht
          refine ⟨Or.inl ⟨by simp, by simp, by simp⟩, ?_, ?_, ?_⟩
          · intro _
            exact ⟨li, mi, ti, hli, hmi, hti, rfl, rfl, rfl⟩
          · intro hfalse _
            rw [h1] at hfalse
            exact Bool.noConfusion hfalse
          · intro hfalse _
            rw [h1] at hfalse
            exact Bool.noConfusion hfalse
  next h1 =>
    have h1f : headerHas hs "x-rate-limit-reset" = false := by
      simpa using h1
    split at h
    next h2 =>
      split at h
      next e heq => exact Except.noConfusion h
      next li hli =>
        split at h
        next e heq => exact Except.noConfusion h
        next mi hmi =>
          split at h
          next heq => exact Except.noConfusion h
          next hv hgv =>
            split at h
            next heq => exact Except.noConfusion h
            next s hfv =>
              simp only [Except.ok.injEq, Prod.mk.injEq] at h
              obtain ⟨hl, hm, ht⟩ := h
              subst hl; subst hm; subst ht
              refine ⟨Or.inl ⟨by simp, by simp, by simp⟩, ?_, ?_, ?_⟩
              · intro htrue
                exact absurd htrue h1
              · intro _ _
                exact ⟨li, mi, hv, s, hli, hmi, hgv, hfv, rfl, rfl, rfl⟩
              · intro _ h2f
                rw [h2] at h2f
                exact Bool.noConfusion h2f
    next h2 =>
      simp only [Except.ok.injEq, Prod.mk.injEq] at h
      obtain ⟨hl, hm, ht⟩ := h
      subst hl; subst hm; subst ht
      refine ⟨Or.inr ⟨rfl, rfl, rfl⟩, ?_, ?_, fun _ _ => ⟨rfl, rfl, rfl⟩⟩
      · intro htrue
        exact absurd htrue h1
      · intro _ h2t
        exact absurd h2t h2

/-- C2: for every successfully constructed Response the three rate-limit
fields are all populated from exactly one of the two header schemes or all
None, never partially; when x-rate-limit-reset is a header the three
standard fields are read as integers plus a timestamp and the cost-based
headers are ignored even when both schemes are present; when only
x-cost-rate-limit-reset is a header the three cost-based fields are read;
when neither is present the three fields are None. -/
theorem rate_limit_all_or_nothing (code : Int) (hs : List (String × HVal))
    (body raw : Option PyVal) (resp : Response)
    (hmk : Response.make code hs body raw = Except.ok resp) :
    ((resp.rate_limit ≠ none ∧ resp.rate_limit_remaining ≠ none ∧
        resp.rate_limit_reset ≠ none) ∨
     (resp.rate_limit = none ∧ resp.rate_limit_remaining = none ∧
        resp.rate_limit_reset = none)) ∧
    (headerHas hs "x-rate-limit-reset" = true →
      ∃ li mi ti : Int,
        headerInt hs "x-rate-limit-limit" = Except.ok li ∧
        headerInt hs "x-rate-limit-remaining" = Except.ok mi ∧
        headerInt hs "x-rate-limit-reset" = Except.ok ti ∧
        resp.rate_limit = some li ∧ resp.rate_limit_remaining = some mi ∧
        resp.rate_limit_reset = some (Instant.fromTimestamp ti)) ∧
    (headerHas hs "x-rate-limit-reset" = false →
      headerHas hs "x-cost-rate-limit-reset" = true →
      ∃ li mi : Int, ∃ hv : HVal, ∃ s : String,
        headerInt hs "x-cost-rate-limit-limit" = Except.ok li ∧
        headerInt hs "x-cost-rate-limit-remaining" = Except.ok mi ∧
        headerGet hs "x-cost-rate-limit-reset" = some hv ∧
        hv.first = some s ∧
        resp.rate_limit = some li ∧ resp.rate_limit_remaining = some mi ∧
        resp.rate_limit_reset = some (dateutil_parse s)) ∧
    (headerHas hs "x-rate-limit-reset" = false →
      headerHas hs "x-cost-rate-limit-reset" = false →
      resp.rate_limit = none ∧ resp.rate_limit_remaining = none ∧
      resp.rate_limit_reset = none) := by
  have hrf : rateFields hs =
      Except.ok (resp.rate_limit,
        resp.rate_limit_remaining, resp.rate_limit_reset) := by
    simp only [Response.make] at hmk
    cases hr : rateFields hs with
    | error e => rw [hr] at hmk; exact Except.noConfusion hmk
    | ok x =>
      obtain ⟨l, m, t⟩ := x
      rw [hr] at hmk
      simp only [Except.ok.injEq] at hmk
      subst hmk
      rfl
  exact rateFields_spec hs _ _ _ hrf

/-- C2 witness: with both schemes present the constructed Response carries
the standard-scheme values. -/
theorem rate_limit_all_or_nothing_witness :
    headerHas bothSchemeHeaders "x-rate-limit-reset" = true ∧
    (∃ li mi ti : Int,
      headerInt bothSchemeHeaders "x-rate-limit-limit" = Except.ok li ∧
      headerInt bothSchemeHeaders "x-rate-limit-remaining" = Except.ok mi ∧
      headerInt bothSchemeHeaders "x-rate-limit-reset" = Except.ok ti ∧
      bothSchemeResponse.rate_limit = some li ∧
      bothSchemeResponse.rate_limit_remaining = some mi ∧
      bothSchemeResponse.rate_limit_reset =
        some (Instant.fromTimestamp ti)) :=
  ⟨rfl,
   (rate_limit_all_or_nothing 200 bothSchemeHeaders (some (PyVal.dict []))
      (some (PyVal.str "{}")) bothSchemeResponse rfl).2.1 rfl⟩

/-- C10: a Response constructed with a falsy parsed body (None, False, 0,
the empty string, the empty list or the empty dict) exposes raw_body as its
body; the supplied parsed body is exposed only when truthy — the fallback
tests truthiness, not absence. -/
theorem body_falsy_fallback (code : Int) (hs : List (String × HVal))
    (b : PyVal) (raw : Option PyVal) (resp : Response)
    (hmk : Response.make code hs (some b) raw = Except.ok resp) :
    (b.truthy = false → resp.body = resp.raw_body) ∧
    (b.truthy = true → resp.body = b) := by
  simp only [Response.make] at hmk
  cases hr : rateFields hs with
  | error e => rw [hr] at hmk; exact Except.noConfusion hmk
  | ok x =>
    obtain ⟨l, m, t⟩ := x
    rw [hr] at hmk
    simp only [Except.ok.injEq] at hmk
    subst hmk
    constructor
    · intro hf
      simp [pyOr, hf]
    · intro ht
      simp [pyOr, ht]

/-- C10 witness: an empty-dict parsed body is falsy, so the body falls back
to the raw body. -/
theorem body_falsy_fallback_witness :
    PyVal.truthy (PyVal.dict []) = false ∧
    (⟨404, [], PyVal.str "nf", PyVal.str "nf", none, none,
        none⟩ : Response).body =
      (⟨404, [], PyVal.str "nf", PyVal.str "nf", none, none,
        none⟩ : Response).raw_body :=
  ⟨rfl,
   (body_falsy_fallback 404 [] (PyVal.dict []) (some (PyVal.str "nf"))
      ⟨404, [], PyVal.str "nf", PyVal.str "nf", none, none, none⟩ rfl).1
     rfl⟩

/-- C3: the error property of a Response is true exactly for the status
codes between 400 and 599. -/
theorem response_error_iff (r : Response) :
    r.error = true ↔ (400 ≤ r.code ∧ r.code ≤ 599) := by
  unfold Response.error
  by_cases h : 400 ≤ r.code ∧ r.code ≤ 599 <;> simp [h]

/-- C4: with sandbox set the resolved domain is the sandbox domain even when
a domain option is supplied; without sandbox it is the domain option when
supplied and otherwise the production default; the final URL is the resolved
domain concatenated with the resource, and perform consults the transport
only at that URL. -/
theorem domain_resolution (r : Request) (ua : String) :
    (r.client.sandbox = true → r.domain = SANDBOX_DOMAIN) ∧
    (r.client.sandbox = false →
      ∀ d, r.options.domain = some d → r.domain = d) ∧
    (r.client.sandbox = false → r.options.domain = none →
      r.domain = DEFAULT_DOMAIN) ∧
    r.url = r.domain ++ r.resource ∧
    (∀ s₁ s₂ : Send,
      (∀ m h d p, s₁ m r.url h d p = s₂ m r.url h d p) →
      r.perform ua s₁ = r.perform ua s₂) := by
  refine ⟨fun h => by simp [Request.domain, h], ?_, ?_, rfl, ?_⟩
  · intro h d hd
    simp [Request.domain, h, hd]
  · intro h hd
    simp [Request.domain, h, hd]
  · intro s₁ s₂ hsend
    simp only [Request.url] at hsend
    simp only [Request.perform, Request.oauth_request]
    rw [hsend]

/-- C1: whenever the dispatch produces a Response, perform raises the API
error built from that Response when its code is at least 400 and returns
that Response unchanged when its code is below 400; the outcome type admits
nothing else and the dispatch is consulted once, with no retry. -/
theorem perform_outcome (r : Request) (ua : String) (send : Send)
    (resp : Response) (hok : r.oauth_request ua send = Except.ok resp) :
    (400 ≤ resp.code →
      r.perform ua send = Except.error (PyErr.apiError resp)) ∧
    (resp.code < 400 → r.perform ua send = Except.ok resp) := by
  unfold Request.perform
  rw [hok]
  constructor
  · intro h
    have h399 : resp.code > 399 := by omega
    simp [h399]
  · intro h
    have h399 : ¬ resp.code > 399 := by omega
    simp [h399]

/-- C1 witness: at a 200-status reply, perform returns the dispatched
Response unchanged. -/
theorem perform_outcome_witness :
    ((⟨200, [], PyVal.str "{}", PyVal.str "{}", none, none,
        none⟩ : Response).code < 400) ∧
    Request.perform
        (Request.make ⟨"ck", "cs", "at", "as", false, false⟩ "GET"
          "/1/accounts" ⟨none, none, none, none⟩) "ua"
        (fun _ _ _ _ _ =>
          ⟨200, [], Except.ok (PyVal.dict []), "{}"⟩) =
      Except.ok
        ⟨200, [], PyVal.str "{}", PyVal.str "{}", none, none, none⟩ :=
  ⟨by decide,
   (perform_outcome
      (Request.make ⟨"ck", "cs", "at", "as", false, false⟩ "GET"
        "/1/accounts" ⟨none, none, none, none⟩) "ua"
      (fun _ _ _ _ _ => ⟨200, [], Except.ok (PyVal.dict []), "{}"⟩)
      ⟨200, [], PyVal.str "{}", PyVal.str "{}", none, none, none⟩
      rfl).2 (by decide)⟩

/-- C9: when the transport reply's body is not valid JSON, the decoding
failure of response.json() propagates out of perform as that error and no
Response is built; the Response is constructed from the parsed JSON body and
the raw text exactly when decoding succeeds. -/
theorem json_decoding_propagates (r : Request) (ua : String) (send : Send)
    (reply : TransportReply)
    (hreply : send r.method (r.domain ++ r.resource)
        (merged_headers ua r.options.headers) r.options.body
        r.options.params = reply) :
    (∀ e, reply.json = Except.error e →
      r.perform ua send = Except.error e) ∧
    (∀ parsed, reply.json = Except.ok parsed →
      r.oauth_request ua send =
        Response.make reply.status_code reply.headers (some parsed)
          (some (PyVal.str reply.text))) := by
  constructor
  · intro e he
    simp only [Request.perform, Request.oauth_request]
    rw [hreply, he]
  · intro parsed hp
    simp only [Request.oauth_request]
    rw [hreply, hp]

/-- C9 witness: a reply whose body fails JSON decoding makes perform raise
that decoding error. -/
theorem json_decoding_propagates_witness :
    (⟨200, [], Except.error (PyErr.jsonDecodeError "Expecting value"),
        "<html>"⟩ : TransportReply).json =
      Except.error (PyErr.jsonDecodeError "Expecting value") ∧
    Request.perform
        (Request.make ⟨"ck", "cs", "at", "as", false, false⟩ "GET"
          "/1/accounts" ⟨none, none, none, none⟩) "ua"
        (fun _ _ _ _ _ =>
          ⟨200, [], Except.error (PyErr.jsonDecodeError "Expecting value"),
           "<html>"⟩) =
      Except.error (PyErr.jsonDecodeError "Expecting value") :=
  ⟨rfl,
   (json_decoding_propagates
      (Request.make ⟨"ck", "cs", "at", "as", false, false⟩ "GET"
        "/1/accounts" ⟨none, none, none, none⟩) "ua"
      (fun _ _ _ _ _ =>
        ⟨200, [], Except.error (PyErr.jsonDecodeError "Expecting value"),
         "<html>"⟩)
      ⟨200, [], Except.error (PyErr.jsonDecodeError "Expecting value"),
       "<html>"⟩ rfl).1
     (PyErr.jsonDecodeError "Expecting value") rfl⟩

/-- C5 (code divergence): with no handle supplied the builder raises
NameError from the unbound self at http.py line 108 for every filename,
limit and field name, instead of resolving the file size via the filesystem;
the except clause for os.error does not catch it. -/
theorem chunck_image_path_branch (filename : String) (max_size : Nat)
    (field : String) :
    chunck_image filename max_size field none =
      (Except.error PyErr.nameError, none) := rfl

/-- C6 (code divergence): a filename whose MIME type cannot be guessed
raises the invalid-file-type error naming None, not the unknown-file-type
error, because the is-None check at http.py line 123 examines the whole pair
returned by the guess and never fires. -/
theorem chunck_image_unknown_type_eval :
    chunck_image "file.xyz" 100 "image" (some ⟨[1, 2, 3], 0, false⟩) =
      (Except.error (PyErr.sdkError "Invalid file type for image: None"),
       some ⟨[1, 2, 3], 0, false⟩) := rfl

/-- C7 counterexample: at a successful call on pic.png with file bytes
65 66, the body the builder returns is not the byte sequence the claim
describes (the filename renders as the repr of its UTF-8 bytes, and a final
CRLF follows the closing boundary). -/
theorem multipart_body_counterexample :
    builtBody (chunck_image "pic.png" 1 "image"
        (some ⟨[65, 66], 0, false⟩)) ≠
      some (claimed_multipart_body "pic.png" "image" "image/png"
        [65, 66]) := by
  decide

/-- C7 (amended): on success the builder returns exactly the headers mapping
with the fixed multipart content type and the byte length of the body, and
the body is the CRLF-joined sequence of the claim with two differences the
code forces: the filename appears as the Python repr of its UTF-8 encoding,
and a trailing empty element leaves a final CRLF after the closing boundary;
the failure paths return no partial headers or body. -/
theorem multipart_body_amended (filename field : String) (max_size : Nat)
    (c : List Nat) (p : Nat) (t : String)
    (hsize : c.length ≤ max_size * 1024)
    (htype : (guess_type filename).fst = some t)
    (hallowed : t = "image/gif" ∨ t = "image/jpeg" ∨ t = "image/png") :
    chunck_image filename max_size field (some ⟨c, p, false⟩) =
      (Except.ok
        ([("Content-Type", "multipart/form-data; boundary=twitter-ads"),
          ("Content-Length",
            toString (amended_multipart_body filename field t c).length)],
         amended_multipart_body filename field t c),
       some ⟨c, c.length, true⟩) := by
  have hallow : (t == "image/gif" || t == "image/jpeg" ||
      t == "image/png") = true := by
    rcases hallowed with h | h | h <;> subst h <;> rfl
  simp only [chunck_image, FileHandle.seekEnd, FileHandle.tell,
    FileHandle.seekStart, FileHandle.readAll, FileHandle.close, htype,
    amended_multipart_body, pyStrOfOpt]
  rw [if_neg (by simp; omega)]
  simp [hallow, List.drop_zero]

/-- C7 witness: a successful call on pic.png produces the amended body and
headers, with the handle read to the end and closed. -/
theorem multipart_body_amended_witness :
    ([65, 66] : List Nat).length ≤ 1 * 1024 ∧
    chunck_image "pic.png" 1 "image" (some ⟨[65, 66], 0, false⟩) =
      (Except.ok
        ([("Content-Type", "multipart/form-data; boundary=twitter-ads"),
          ("Content-Length",
            toString (amended_multipart_body "pic.png" "image" "image/png"
              [65, 66]).length)],
         amended_multipart_body "pic.png" "image" "image/png" [65, 66]),
       some ⟨[65, 66], 2, true⟩) :=
  ⟨by decide,
   multipart_body_amended "pic.png" "image" 1 [65, 66] 0 "image/png"
     (by decide) (by decide) (Or.inr (Or.inr rfl))⟩

/-- C8 counterexample: a successful call with a caller-supplied handle
leaves that handle closed, so the builder does close handles supplied by
the caller. -/
theorem handle_discipline_counterexample :
    builtOk (chunck_image "pic.png" 1 "image"
        (some ⟨[65, 66], 0, false⟩)) = true ∧
    finalClosed (chunck_image "pic.png" 1 "image"
        (some ⟨[65, 66], 0, false⟩)) = some true := by
  decide

/-- C8 (amended): the builder closes the handle it used exactly on the
success path, including a caller-supplied handle; on the size-limit and
type-validation failure paths no handle is closed; and with no handle
supplied it fails on the unbound self before any handle exists, so it never
opens or closes one of its own. -/
theorem handle_discipline_amended (filename : String) (max_size : Nat)
    (field : String) (h : FileHandle) (hopen : h.closed = false) :
    finalClosed (chunck_image filename max_size field (some h)) =
      some (builtOk (chunck_image filename max_size field (some h))) ∧
    chunck_image filename max_size field none =
      (Except.error PyErr.nameError, none) := by
  constructor
  · simp only [chunck_image, finalClosed, builtOk]
    split
    · simp [FileHandle.seekEnd, hopen]
    · split
      · simp [FileHandle.seekEnd, FileHandle.seekStart, hopen]
      · simp [FileHandle.seekEnd, FileHandle.seekStart, FileHandle.readAll,
          FileHandle.close]
  · rfl

/-- C8 witness: on the type-validation failure for x.bmp the caller-supplied
open handle comes back not closed, matching the failed outcome. -/
theorem handle_discipline_amended_witness :
    (⟨[65, 66], 0, false⟩ : FileHandle).closed = false ∧
    finalClosed (chunck_image "x.bmp" 5 "image"
        (some ⟨[65, 66], 0, false⟩)) =
      some (builtOk (chunck_image "x.bmp" 5 "image"
        (some ⟨[65, 66], 0, false⟩))) :=
  ⟨rfl,
   (handle_discipline_amended "x.bmp" 5 "image" ⟨[65, 66], 0, false⟩
      rfl).1⟩

end TwitterAdsHttp
